import Mathlib

/-!
Shallow embedding of `src/pipeline_scripts/evaluate/script.py` (the
evaluation step of the pipeline).  The script's `__main__` block is a
straight-line program: list the model directory, open and extract
`model.tar.gz`, read and deserialize `model.pkl`, read the two metrics
`valid-mae` and `valid-rmse`, build the fixed-schema report dictionary,
create the output directory (with parents, tolerating existence), log the
rmse, and write `evaluation.json`.

We model file contents abstractly: a byte string is either the cloudpickle
serialization of a result object, a valid gzip tar archive with a list of
members, or some other (unparseable) bytes.  Metric values are modelled as
JSON-serializable leaf values (floats abstracted as rationals, plus the
other scalar JSON types, so that untyped pass-through can be stated).
Python's `repr` of a float is abstracted by the rational's `toString`;
the byte-level claims only need this rendering to be a fixed function of
the value.  The logger is modelled as an event trace (formatting details
of the logging library are abstracted away; an emitted record carries the
value it logs).  Uncaught Python exceptions are modelled by the `err`
outcome, which terminates the run with exit status 1.
-/

namespace EvaluateScript

/-- A JSON-serializable scalar value, the domain of metric values stored in
the result object's `metrics` mapping.  Numbers (Python floats) are
abstracted as rationals. -/
inductive JVal : Type where
  | jnull : JVal
  | jbool : Bool → JVal
  | jnum : ℚ → JVal
  | jstr : String → JVal
deriving DecidableEq, Repr

/-- Whether a value is a JSON number (the spec expects metric values to be
numeric; the code never checks this). -/
def JVal.isNum : JVal → Bool
  | .jnum _ => true
  | _ => false

/-- JSON string escaping as `json.dumps` performs on the characters that can
occur in our modelled strings: backslash and double quote. -/
def escapeChar (c : Char) : String :=
  if c = '"' then "\\\"" else if c = '\\' then "\\\\" else String.singleton c

/-- Escape a whole string for JSON output. -/
def escapeString (s : String) : String :=
  String.join (s.data.map escapeChar)

/-- Rendering of a number in JSON output; abstracts Python's float `repr`
used by `json.dumps`.  Only its functionality (same value, same bytes)
matters for the claims. -/
def renderNum (q : ℚ) : String :=
  toString q

/-- `json.dumps` on a scalar value. -/
def dumpsVal : JVal → String
  | .jnull => "null"
  | .jbool true => "true"
  | .jbool false => "false"
  | .jnum q => renderNum q
  | .jstr s => "\"" ++ escapeString s ++ "\""

/-- The `report_dict` built at script lines 63-72: a nested mapping with
fixed keys `regression_metrics`, `mae`/`rmse`, `value`, carrying the two
metric values. -/
structure ReportDict : Type where
  mae : JVal
  rmse : JVal
deriving DecidableEq, Repr

/-- Build the report dictionary from the two metric values (lines 63-72). -/
def reportDict (mae rmse : JVal) : ReportDict :=
  ⟨mae, rmse⟩

/-- `json.dumps(report_dict)` (line 80): the JSON text of the fixed-schema
report, with Python's default separators. -/
def dumpsReport (r : ReportDict) : String :=
  "\x7b\"regression_metrics\": \x7b\"mae\": \x7b\"value\": " ++ dumpsVal r.mae ++
    "\x7d, \"rmse\": \x7b\"value\": " ++ dumpsVal r.rmse ++ "\x7d\x7d\x7d"

/-- The deserialized result object: the training result reconstituted by
`cloudpickle.loads`; it exposes a `metrics` mapping from metric name to
value (an insertion-ordered dictionary, modelled as an association list). -/
structure ResultObj : Type where
  metrics : List (String × JVal)
deriving DecidableEq, Repr

/-- Abstract file contents (byte strings), classified by what they parse
as: the cloudpickle serialization of a result object, a valid gzip tar
archive with named members, or other bytes that parse as neither. -/
inductive Bytes : Type where
  | pickleOf : ResultObj → Bytes
  | tarGzOf : List (String × Bytes) → Bytes
  | rawBytes : String → Bytes

/-- `cloudpickle.loads` (line 55): succeeds exactly on bytes produced by
cloudpickle serialization, yielding the original object. -/
def cloudpickleLoads : Bytes → Option ResultObj
  | .pickleOf r => some r
  | _ => none

/-- Dictionary / directory lookup: first entry with the given key
(Python `d[k]` and reading a file of a directory). -/
def lookupFile {α : Type} : List (String × α) → String → Option α
  | [], _ => none
  | (k, v) :: rest, key => if k = key then some v else lookupFile rest key

/-- Write a file into a directory (or a key into a dict): replace the
entry in place if the key exists, otherwise append it.  This is both
Python dict update semantics and writing a file with `open(..., 'w')`. -/
def setFile {α : Type} : List (String × α) → String → α → List (String × α)
  | [], key, v => [(key, v)]
  | (k, w) :: rest, key, v =>
      if k = key then (key, v) :: rest else (k, w) :: setFile rest key v

/-- `tar.extractall(path=model_dir)` (line 45): write every archive member
into the model directory, overwriting files of the same name. -/
def extractAll (dir : List (String × Bytes)) (members : List (String × Bytes)) :
    List (String × Bytes) :=
  members.foldl (fun d p => setFile d p.1 p.2) dir

/-- The filesystem state the script interacts with: the contents of the
model directory, the set of directories that exist, and the text files
written by path (the output report lives here). -/
structure FS : Type where
  modelDir : List (String × Bytes)
  dirs : List String
  files : List (String × String)

/-- Split a character list at every slash (the path separator). -/
def splitParts : List Char → List Char → List (List Char)
  | [], cur => [cur.reverse]
  | c :: rest, cur =>
      if c = '/' then cur.reverse :: splitParts rest [] else splitParts rest (c :: cur)

/-- The non-empty components of a path. -/
def pathComponents (p : String) : List String :=
  ((splitParts p.data []).filter (fun l => l ≠ [])).map String.mk

/-- Join successive components into the chain of absolute ancestor paths. -/
def ancestorsFrom (base : String) : List String → List String
  | [] => []
  | part :: rest => (base ++ "/" ++ part) :: ancestorsFrom (base ++ "/" ++ part) rest

/-- All ancestor directories of an absolute path, outermost first,
including the path itself: the directories `mkdir(parents=True)` must
ensure exist. -/
def pathAncestors (p : String) : List String :=
  ancestorsFrom "" (pathComponents p)

/-- Create one directory if it does not exist (no error if it does). -/
def mkdirOne (dirs : List String) (q : String) : List String :=
  if q ∈ dirs then dirs else dirs ++ [q]

/-- `pathlib.Path(p).mkdir(parents=True, exist_ok=True)` (line 75): create
the directory and every missing ancestor; never fails on existing
directories. -/
def mkdirParents (dirs : List String) (p : String) : List String :=
  (pathAncestors p).foldl mkdirOne dirs

/-- Observable events of a run, in program order: a log record (the
logger writes to standard output), the info record carrying the rmse
value (line 77), and a file write (line 79-80). -/
inductive Event : Type where
  | logLine : String → Event
  | logRmse : JVal → Event
  | wroteFile : String → String → Event

/-- The uncaught Python exceptions the script can die of. -/
inductive ScriptError : Type where
  | fileNotFound : String → ScriptError
  | tarReadError : String → ScriptError
  | unpickleError : ScriptError
  | keyError : String → ScriptError

/-- Outcome of a run: normal termination, or an uncaught exception, each
with the final filesystem state and the trace of events emitted before
termination. -/
inductive RunResult : Type where
  | ok : FS → List Event → RunResult
  | err : ScriptError → FS → List Event → RunResult

/-- `model_dir` (line 36). -/
def model_dir : String := "/opt/ml/processing/model/"

/-- `output_dir` (line 74). -/
def output_dir : String := "/opt/ml/processing/evaluation"

/-- `evaluation_path` (line 78). -/
def evaluation_path : String := output_dir ++ "/evaluation.json"

/-- The log records emitted before the archive is opened: the startup
debug line, one info line per file of the model directory (lines 37-38),
and the loading debug line (line 40). -/
def preTarTrace (fs : FS) : List Event :=
  Event.logLine "Starting evaluation." ::
    fs.modelDir.map (fun p => Event.logLine p.1) ++ [Event.logLine "Loading model."]

/-- The whole `__main__` block of the script (lines 33-80), as a function
from the initial filesystem state to the run outcome.  Every step is in
the source's order; no exception is caught, so the first failure aborts
the run with the state and trace accumulated so far. -/
def runScript (fs : FS) : RunResult :=
  let tr2 := preTarTrace fs
  match lookupFile fs.modelDir "model.tar.gz" with
  | none => .err (.fileNotFound (model_dir ++ "model.tar.gz")) fs tr2
  | some (.pickleOf _) => .err (.tarReadError (model_dir ++ "model.tar.gz")) fs tr2
  | some (.rawBytes _) => .err (.tarReadError (model_dir ++ "model.tar.gz")) fs tr2
  | some (.tarGzOf members) =>
    let md1 := extractAll fs.modelDir members
    let fs1 : FS := { fs with modelDir := md1 }
    let tr3 := tr2 ++ md1.map (fun p => Event.logLine p.1)
    match lookupFile md1 "model.pkl" with
    | none => .err (.fileNotFound (model_dir ++ "model.pkl")) fs1 tr3
    | some pklBytes =>
      match cloudpickleLoads pklBytes with
      | none => .err .unpickleError fs1 tr3
      | some result =>
        let tr4 := tr3 ++ [Event.logLine "extracting metrics."]
        match lookupFile result.metrics "valid-mae" with
        | none => .err (.keyError "valid-mae") fs1 tr4
        | some mae =>
          match lookupFile result.metrics "valid-rmse" with
          | none => .err (.keyError "valid-rmse") fs1 tr4
          | some rmse =>
            let fs2 : FS := { fs1 with dirs := mkdirParents fs1.dirs output_dir }
            let content := dumpsReport (reportDict mae rmse)
            let tr5 := tr4 ++ [Event.logRmse rmse, Event.wroteFile evaluation_path content]
            .ok { fs2 with files := setFile fs2.files evaluation_path content } tr5

/-- Process exit status: a normal run exits 0, an uncaught exception makes
the interpreter exit 1. -/
def exitCode : RunResult → Nat
  | .ok _ _ => 0
  | .err _ _ _ => 1

/-- The filesystem state when the process terminates. -/
def finalFS : RunResult → FS
  | .ok fs _ => fs
  | .err _ fs _ => fs

/-- The event trace of a run. -/
def runTrace : RunResult → List Event
  | .ok _ tr => tr
  | .err _ _ tr => tr

/-- Whether the run terminated normally. -/
def isOk : RunResult → Bool
  | .ok _ _ => true
  | .err _ _ _ => false

/-- The file-write events of a trace. -/
def writeEvents (tr : List Event) : List Event :=
  tr.filter fun e => match e with | .wroteFile _ _ => true | _ => false

/-- The event trace of a successful run, in program order: startup and
directory-listing log records, the post-extraction listing, the
metric-extraction debug record, then the rmse info record and the report
write. -/
def successTrace (fs : FS) (ms : List (String × Bytes)) (rmse : JVal) (content : String) :
    List Event :=
  preTarTrace fs ++ (extractAll fs.modelDir ms).map (fun p => Event.logLine p.1) ++
    [Event.logLine "extracting metrics."] ++
    [Event.logRmse rmse, Event.wroteFile evaluation_path content]

/-- A concrete well-formed input: `model.tar.gz` containing a pickled
result with metrics 1.23 and 4.56. -/
def sampleMetrics : List (String × JVal) :=
  [("valid-mae", JVal.jnum (123 / 100)), ("valid-rmse", JVal.jnum (456 / 100))]

def sampleResult : ResultObj := ⟨sampleMetrics⟩

def sampleMembers : List (String × Bytes) := [("model.pkl", Bytes.pickleOf sampleResult)]

def sampleFS : FS := ⟨[("model.tar.gz", Bytes.tarGzOf sampleMembers)], [], []⟩

/-- A model directory without `model.tar.gz`, with a stale report already
on the output volume. -/
def noTarFS : FS :=
  ⟨[("readme.txt", Bytes.rawBytes "hello")], ["/opt"], [(evaluation_path, "stale report")]⟩

/-- A well-formed archive whose metrics mapping lacks `valid-rmse`. -/
def missingRmseResult : ResultObj := ⟨[("valid-mae", JVal.jnum 1)]⟩

def missingRmseMembers : List (String × Bytes) :=
  [("model.pkl", Bytes.pickleOf missingRmseResult)]

def missingRmseFS : FS := ⟨[("model.tar.gz", Bytes.tarGzOf missingRmseMembers)], [], []⟩

/-- The same input archive mounted over a state that already holds a
previous run of the report. -/
def rerunFS : FS :=
  ⟨[("model.tar.gz", Bytes.tarGzOf sampleMembers), ("notes.txt", Bytes.rawBytes "n")],
   ["/opt", "/opt/ml"], [(evaluation_path, "previous run output")]⟩

/-- A `model.tar.gz` that is not a valid gzip tar stream. -/
def corruptTarFS : FS := ⟨[("model.tar.gz", Bytes.rawBytes "not a tar")], [], []⟩

/-- An archive whose `model.pkl` does not deserialize, failing after
extraction but before directory creation. -/
def badPickleMembers : List (String × Bytes) := [("model.pkl", Bytes.rawBytes "garbage")]

def badPickleFS : FS :=
  ⟨[("model.tar.gz", Bytes.tarGzOf badPickleMembers)], ["/existing"], []⟩

/-- The state at the deserialization failure: extraction happened, but
nothing else. -/
def badPickleFS1 : FS :=
  ⟨extractAll badPickleFS.modelDir badPickleMembers, badPickleFS.dirs, badPickleFS.files⟩

def badPickleTrace : List Event :=
  preTarTrace badPickleFS ++
    (extractAll badPickleFS.modelDir badPickleMembers).map (fun p => Event.logLine p.1)

/-- An artifact whose metric values are strings, not numbers. -/
def strMetrics : List (String × JVal) :=
  [("valid-mae", JVal.jstr "not-a-number"), ("valid-rmse", JVal.jstr "also-text")]

def strResult : ResultObj := ⟨strMetrics⟩

def strMembers : List (String × Bytes) := [("model.pkl", Bytes.pickleOf strResult)]

def strFS : FS := ⟨[("model.tar.gz", Bytes.tarGzOf strMembers)], [], []⟩

/-- An artifact with the same two required metrics but extra metric keys
around them and an extra archive member. -/
def extraMetrics : List (String × JVal) :=
  [("train-logloss", JVal.jnum 7), ("valid-mae", JVal.jnum (123 / 100)),
   ("valid-rmse", JVal.jnum (456 / 100)), ("valid-r2", JVal.jnum (9 / 10))]

def extraResult : ResultObj := ⟨extraMetrics⟩

def extraMembers : List (String × Bytes) :=
  [("model.pkl", Bytes.pickleOf extraResult), ("extra.txt", Bytes.rawBytes "x")]

def extraFS : FS := ⟨[("model.tar.gz", Bytes.tarGzOf extraMembers)], [], []⟩

/-- Characterization of a successful run: if the archive is a valid tar
containing (after extraction) a pickled result whose metrics mapping has
both required keys, the run terminates normally with the extracted model
directory, the created output directory chain, the written report, and
the success trace. -/
theorem runScript_ok (fs : FS) (ms : List (String × Bytes)) (r : ResultObj) (m rv : JVal)
    (h1 : lookupFile fs.modelDir "model.tar.gz" = some (Bytes.tarGzOf ms))
    (h2 : lookupFile (extractAll fs.modelDir ms) "model.pkl" = some (Bytes.pickleOf r))
    (h3 : lookupFile r.metrics "valid-mae" = some m)
    (h4 : lookupFile r.metrics "valid-rmse" = some rv) :
    runScript fs =
      .ok ⟨extractAll fs.modelDir ms, mkdirParents fs.dirs output_dir,
           setFile fs.files evaluation_path (dumpsReport (reportDict m rv))⟩
        (successTrace fs ms rv (dumpsReport (reportDict m rv))) := by
  simp only [runScript, h1, h2, cloudpickleLoads, h3, h4, successTrace]

@[simp]
theorem writeEvents_nil : writeEvents [] = [] := rfl

@[simp]
theorem writeEvents_append (a b : List Event) :
    writeEvents (a ++ b) = writeEvents a ++ writeEvents b := by
  simp [writeEvents]

@[simp]
theorem writeEvents_cons_logLine (s : String) (tr : List Event) :
    writeEvents (Event.logLine s :: tr) = writeEvents tr := rfl

@[simp]
theorem writeEvents_cons_logRmse (v : JVal) (tr : List Event) :
    writeEvents (Event.logRmse v :: tr) = writeEvents tr := rfl

@[simp]
theorem writeEvents_cons_wrote (p c : String) (tr : List Event) :
    writeEvents (Event.wroteFile p c :: tr) = Event.wroteFile p c :: writeEvents tr := rfl

@[simp]
theorem writeEvents_map_logLine (l : List (String × Bytes)) :
    writeEvents (l.map (fun p => Event.logLine p.1)) = [] := by
  induction l with
  | nil => rfl
  | cons p rest ih => simpa [writeEvents] using ih

@[simp]
theorem writeEvents_preTarTrace (fs : FS) : writeEvents (preTarTrace fs) = [] := by
  simp [preTarTrace]

theorem writeEvents_successTrace (fs : FS) (ms : List (String × Bytes)) (rmse : JVal)
    (content : String) :
    writeEvents (successTrace fs ms rmse content) = [Event.wroteFile evaluation_path content] := by
  simp [successTrace]

/-- On any run that ends in an uncaught exception, the directory set and
the written files are exactly as they were initially, and no write event
was emitted. -/
theorem runScript_err_state (fs : FS) (e : ScriptError) (fs2 : FS) (tr : List Event)
    (h : runScript fs = .err e fs2 tr) :
    fs2.dirs = fs.dirs ∧ fs2.files = fs.files ∧ writeEvents tr = [] := by
  unfold runScript at h
  dsimp only at h
  repeat' split at h
  all_goals cases h
  all_goals exact ⟨rfl, rfl, by simp⟩

theorem lookupFile_setFile_self {α : Type} (d : List (String × α)) (k : String) (v : α) :
    lookupFile (setFile d k v) k = some v := by
  induction d with
  | nil => simp [setFile, lookupFile]
  | cons p rest ih =>
    obtain ⟨k1, v1⟩ := p
    by_cases hk : k1 = k
    · subst hk; simp [setFile, lookupFile]
    · simp [setFile, lookupFile, hk, ih]

theorem foldl_mkdirOne_mem (L : List String) (dirs : List String) (a : String) (h : a ∈ dirs) :
    a ∈ L.foldl mkdirOne dirs := by
  induction L generalizing dirs with
  | nil => exact h
  | cons q L ih =>
    refine ih _ ?_
    unfold mkdirOne
    split
    · exact h
    · exact List.mem_append_left _ h

theorem foldl_mkdirOne_mem_self (L : List String) (dirs : List String) (a : String) (h : a ∈ L) :
    a ∈ L.foldl mkdirOne dirs := by
  induction L generalizing dirs with
  | nil => cases h
  | cons q L ih =>
    rcases List.mem_cons.mp h with rfl | h2
    · refine foldl_mkdirOne_mem L _ _ ?_
      unfold mkdirOne
      split
      · assumption
      · simp
    · exact ih _ h2

theorem foldl_mkdirOne_noop (L : List String) (dirs : List String) (h : ∀ a ∈ L, a ∈ dirs) :
    L.foldl mkdirOne dirs = dirs := by
  induction L with
  | nil => rfl
  | cons q L ih =>
    have hq : mkdirOne dirs q = dirs := by
      unfold mkdirOne
      rw [if_pos (h q (List.mem_cons_self q L))]
    rw [List.foldl_cons, hq]
    exact ih fun a ha => h a (List.mem_cons_of_mem _ ha)

theorem mkdirParents_mem_of_mem (dirs : List String) (p a : String) (h : a ∈ dirs) :
    a ∈ mkdirParents dirs p :=
  foldl_mkdirOne_mem _ _ _ h

theorem mkdirParents_mem_ancestor (dirs : List String) (p a : String) (h : a ∈ pathAncestors p) :
    a ∈ mkdirParents dirs p :=
  foldl_mkdirOne_mem_self _ _ _ h

theorem mkdirParents_noop (dirs : List String) (p : String)
    (h : ∀ a ∈ pathAncestors p, a ∈ dirs) : mkdirParents dirs p = dirs :=
  foldl_mkdirOne_noop _ _ h

/-- If `model.tar.gz` is absent from the model directory, `tarfile.open`
raises `FileNotFoundError` at once: the run dies with the filesystem
untouched and only the startup log records emitted. -/
theorem runScript_no_tar (fs : FS)
    (h : lookupFile fs.modelDir "model.tar.gz" = none) :
    runScript fs = .err (.fileNotFound (model_dir ++ "model.tar.gz")) fs (preTarTrace fs) := by
  simp only [runScript, h]

/-- If either required metric key is absent, the run dies with a
`KeyError` on one of the two keys, with the model directory extracted
but the directory set and output files untouched. -/
theorem runScript_missing_metric (fs : FS) (ms : List (String × Bytes)) (r : ResultObj)
    (h1 : lookupFile fs.modelDir "model.tar.gz" = some (Bytes.tarGzOf ms))
    (h2 : lookupFile (extractAll fs.modelDir ms) "model.pkl" = some (Bytes.pickleOf r))
    (hmiss : lookupFile r.metrics "valid-mae" = none ∨
      lookupFile r.metrics "valid-rmse" = none) :
    ∃ k, runScript fs = .err (.keyError k)
      ⟨extractAll fs.modelDir ms, fs.dirs, fs.files⟩
      (preTarTrace fs ++ (extractAll fs.modelDir ms).map (fun p => Event.logLine p.1) ++
        [Event.logLine "extracting metrics."]) := by
  rcases hmiss with hm | hm
  · exact ⟨"valid-mae", by simp only [runScript, h1, h2, cloudpickleLoads, hm]⟩
  · rcases hmae : lookupFile r.metrics "valid-mae" with _ | m
    · exact ⟨"valid-mae", by simp only [runScript, h1, h2, cloudpickleLoads, hmae]⟩
    · exact ⟨"valid-rmse", by simp only [runScript, h1, h2, cloudpickleLoads, hmae, hm]⟩

/-- C1: for every well-formed archive whose extracted `model.pkl`
deserializes to a result whose metrics mapping has `valid-mae = m` and
`valid-rmse = rv`, the run writes to `evaluation.json` exactly the JSON
serialization of the report object built from `m` and `rv`, and this is
the only file write the run performs. -/
theorem evaluation_report_exact (fs : FS) (ms : List (String × Bytes)) (r : ResultObj)
    (m rv : JVal)
    (h1 : lookupFile fs.modelDir "model.tar.gz" = some (Bytes.tarGzOf ms))
    (h2 : lookupFile (extractAll fs.modelDir ms) "model.pkl" = some (Bytes.pickleOf r))
    (h3 : lookupFile r.metrics "valid-mae" = some m)
    (h4 : lookupFile r.metrics "valid-rmse" = some rv) :
    lookupFile (finalFS (runScript fs)).files evaluation_path
        = some (dumpsReport (reportDict m rv)) ∧
    writeEvents (runTrace (runScript fs))
        = [Event.wroteFile evaluation_path (dumpsReport (reportDict m rv))] := by
  rw [runScript_ok fs ms r m rv h1 h2 h3 h4]
  exact ⟨lookupFile_setFile_self _ _ _, writeEvents_successTrace fs ms rv _⟩

/-- C1 witness: a concrete archive with metrics 1.23 and 4.56. -/
theorem evaluation_report_exact_witness :
    lookupFile sampleFS.modelDir "model.tar.gz" = some (Bytes.tarGzOf sampleMembers) ∧
    (lookupFile (finalFS (runScript sampleFS)).files evaluation_path
        = some (dumpsReport (reportDict (JVal.jnum (123 / 100)) (JVal.jnum (456 / 100)))) ∧
     writeEvents (runTrace (runScript sampleFS))
        = [Event.wroteFile evaluation_path
            (dumpsReport (reportDict (JVal.jnum (123 / 100)) (JVal.jnum (456 / 100))))]) :=
  ⟨rfl, evaluation_report_exact sampleFS sampleMembers sampleResult _ _ rfl rfl rfl rfl⟩

/-- C2: if `model.tar.gz` is absent from the input model directory, the
process exits with a non-zero status, the output files are untouched (so
`evaluation.json` is not created), and no write event occurred. -/
theorem missing_archive_no_output (fs : FS)
    (h : lookupFile fs.modelDir "model.tar.gz" = none) :
    exitCode (runScript fs) ≠ 0 ∧
    (finalFS (runScript fs)).files = fs.files ∧
    writeEvents (runTrace (runScript fs)) = [] := by
  rw [runScript_no_tar fs h]
  exact ⟨by simp [exitCode], rfl, by simp [runTrace]⟩

/-- C2 witness: the concrete tar-less directory fails without touching
the stale report. -/
theorem missing_archive_no_output_witness :
    lookupFile noTarFS.modelDir "model.tar.gz" = none ∧
    (exitCode (runScript noTarFS) ≠ 0 ∧
     (finalFS (runScript noTarFS)).files = noTarFS.files ∧
     writeEvents (runTrace (runScript noTarFS)) = []) :=
  ⟨rfl, missing_archive_no_output noTarFS rfl⟩

/-- C3: if the deserialized result object lacks `valid-mae` or
`valid-rmse`, the process exits non-zero with the output files untouched:
no `evaluation.json` is produced in that run, and no write occurred. -/
theorem missing_metric_no_output (fs : FS) (ms : List (String × Bytes)) (r : ResultObj)
    (h1 : lookupFile fs.modelDir "model.tar.gz" = some (Bytes.tarGzOf ms))
    (h2 : lookupFile (extractAll fs.modelDir ms) "model.pkl" = some (Bytes.pickleOf r))
    (hmiss : lookupFile r.metrics "valid-mae" = none ∨
      lookupFile r.metrics "valid-rmse" = none) :
    exitCode (runScript fs) ≠ 0 ∧
    (finalFS (runScript fs)).files = fs.files ∧
    writeEvents (runTrace (runScript fs)) = [] := by
  obtain ⟨k, hk⟩ := runScript_missing_metric fs ms r h1 h2 hmiss
  rw [hk]
  exact ⟨by simp [exitCode], rfl, by simp [runTrace]⟩

/-- C3 witness: the concrete archive missing `valid-rmse` fails without
producing output. -/
theorem missing_metric_no_output_witness :
    lookupFile missingRmseResult.metrics "valid-rmse" = none ∧
    (exitCode (runScript missingRmseFS) ≠ 0 ∧
     (finalFS (runScript missingRmseFS)).files = missingRmseFS.files ∧
     writeEvents (runTrace (runScript missingRmseFS)) = []) :=
  ⟨rfl, missing_metric_no_output missingRmseFS missingRmseMembers missingRmseResult
    rfl rfl (Or.inr rfl)⟩

/-- C4: on a successful run the program ensures the output directory
exists before writing: the directory and all its ancestors are in the
final directory set (created if absent), and when they all already exist
the directory set is left exactly as it was, without failing. -/
theorem output_dir_ensured (fs : FS) (ms : List (String × Bytes)) (r : ResultObj)
    (m rv : JVal)
    (h1 : lookupFile fs.modelDir "model.tar.gz" = some (Bytes.tarGzOf ms))
    (h2 : lookupFile (extractAll fs.modelDir ms) "model.pkl" = some (Bytes.pickleOf r))
    (h3 : lookupFile r.metrics "valid-mae" = some m)
    (h4 : lookupFile r.metrics "valid-rmse" = some rv) :
    isOk (runScript fs) = true ∧
    (∀ q ∈ pathAncestors output_dir, q ∈ (finalFS (runScript fs)).dirs) ∧
    output_dir ∈ (finalFS (runScript fs)).dirs ∧
    ((∀ q ∈ pathAncestors output_dir, q ∈ fs.dirs) →
      (finalFS (runScript fs)).dirs = fs.dirs) := by
  rw [runScript_ok fs ms r m rv h1 h2 h3 h4]
  refine ⟨rfl, ?_, ?_, ?_⟩
  · exact fun q hq => mkdirParents_mem_ancestor _ _ _ hq
  · exact mkdirParents_mem_ancestor _ _ _ (by decide)
  · exact fun hall => mkdirParents_noop _ _ hall

/-- C4 witness: the sample run starting with no directories creates the
whole output chain. -/
theorem output_dir_ensured_witness :
    isOk (runScript sampleFS) = true ∧
    (∀ q ∈ pathAncestors output_dir, q ∈ (finalFS (runScript sampleFS)).dirs) ∧
    output_dir ∈ (finalFS (runScript sampleFS)).dirs ∧
    ((∀ q ∈ pathAncestors output_dir, q ∈ sampleFS.dirs) →
      (finalFS (runScript sampleFS)).dirs = sampleFS.dirs) :=
  output_dir_ensured sampleFS sampleMembers sampleResult _ _ rfl rfl rfl rfl

/-- C5: the bytes of `evaluation.json` are a deterministic function of the
two metric values: two runs whose artifacts carry the same `valid-mae`
and `valid-rmse` produce byte-identical content, whatever the prior
contents of the output file, so a rerun fully overwrites it. -/
theorem output_deterministic_overwrite (fsA fsB : FS)
    (msA msB : List (String × Bytes)) (rA rB : ResultObj) (m rv : JVal)
    (hA1 : lookupFile fsA.modelDir "model.tar.gz" = some (Bytes.tarGzOf msA))
    (hA2 : lookupFile (extractAll fsA.modelDir msA) "model.pkl" = some (Bytes.pickleOf rA))
    (hA3 : lookupFile rA.metrics "valid-mae" = some m)
    (hA4 : lookupFile rA.metrics "valid-rmse" = some rv)
    (hB1 : lookupFile fsB.modelDir "model.tar.gz" = some (Bytes.tarGzOf msB))
    (hB2 : lookupFile (extractAll fsB.modelDir msB) "model.pkl" = some (Bytes.pickleOf rB))
    (hB3 : lookupFile rB.metrics "valid-mae" = some m)
    (hB4 : lookupFile rB.metrics "valid-rmse" = some rv) :
    lookupFile (finalFS (runScript fsA)).files evaluation_path
      = lookupFile (finalFS (runScript fsB)).files evaluation_path ∧
    lookupFile (finalFS (runScript fsB)).files evaluation_path
      = some (dumpsReport (reportDict m rv)) := by
  rw [runScript_ok fsA msA rA m rv hA1 hA2 hA3 hA4,
    runScript_ok fsB msB rB m rv hB1 hB2 hB3 hB4]
  exact ⟨(lookupFile_setFile_self _ _ _).trans (lookupFile_setFile_self _ _ _).symm,
    lookupFile_setFile_self _ _ _⟩

/-- C5 witness: rerunning over a stale report yields the same bytes as a
fresh run. -/
theorem output_deterministic_overwrite_witness :
    lookupFile rerunFS.files evaluation_path = some "previous run output" ∧
    (lookupFile (finalFS (runScript sampleFS)).files evaluation_path
       = lookupFile (finalFS (runScript rerunFS)).files evaluation_path ∧
     lookupFile (finalFS (runScript rerunFS)).files evaluation_path
       = some (dumpsReport (reportDict (JVal.jnum (123 / 100)) (JVal.jnum (456 / 100))))) :=
  ⟨rfl, output_deterministic_overwrite sampleFS rerunFS sampleMembers sampleMembers
    sampleResult sampleResult _ _ rfl rfl rfl rfl rfl rfl rfl rfl⟩

/-- C6: every failure is fatal and uncaught: whenever the run ends in an
error, the process exit status is non-zero, the output files are exactly
as they were, and no write event was emitted. -/
theorem failures_fatal (fs : FS) (e : ScriptError) (fs2 : FS) (tr : List Event)
    (h : runScript fs = .err e fs2 tr) :
    exitCode (runScript fs) ≠ 0 ∧ fs2.files = fs.files ∧ writeEvents tr = [] := by
  obtain ⟨_, hf, hw⟩ := runScript_err_state fs e fs2 tr h
  refine ⟨?_, hf, hw⟩
  rw [h]
  simp [exitCode]

/-- C6 witness: the corrupt archive dies with a tar read error and a
non-zero exit. -/
theorem failures_fatal_witness :
    runScript corruptTarFS =
      .err (ScriptError.tarReadError (model_dir ++ "model.tar.gz")) corruptTarFS
        (preTarTrace corruptTarFS) ∧
    (exitCode (runScript corruptTarFS) ≠ 0 ∧
     corruptTarFS.files = corruptTarFS.files ∧
     writeEvents (preTarTrace corruptTarFS) = []) :=
  ⟨rfl, failures_fatal corruptTarFS _ _ _ rfl⟩

/-- C7: on every successful run, the info record carrying the rmse value
is emitted strictly before the report file write: the trace ends with the
rmse log record immediately followed by the write. -/
theorem rmse_logged_before_write (fs : FS) (ms : List (String × Bytes)) (r : ResultObj)
    (m rv : JVal)
    (h1 : lookupFile fs.modelDir "model.tar.gz" = some (Bytes.tarGzOf ms))
    (h2 : lookupFile (extractAll fs.modelDir ms) "model.pkl" = some (Bytes.pickleOf r))
    (h3 : lookupFile r.metrics "valid-mae" = some m)
    (h4 : lookupFile r.metrics "valid-rmse" = some rv) :
    ∃ pre, runTrace (runScript fs) =
      pre ++ [Event.logRmse rv,
        Event.wroteFile evaluation_path (dumpsReport (reportDict m rv))] := by
  rw [runScript_ok fs ms r m rv h1 h2 h3 h4]
  exact ⟨preTarTrace fs ++ (extractAll fs.modelDir ms).map (fun p => Event.logLine p.1) ++
    [Event.logLine "extracting metrics."], rfl⟩

/-- C7 witness: the sample run logs 4.56 right before writing. -/
theorem rmse_logged_before_write_witness :
    ∃ pre, runTrace (runScript sampleFS) =
      pre ++ [Event.logRmse (JVal.jnum (456 / 100)),
        Event.wroteFile evaluation_path
          (dumpsReport (reportDict (JVal.jnum (123 / 100)) (JVal.jnum (456 / 100))))] :=
  rmse_logged_before_write sampleFS sampleMembers sampleResult _ _ rfl rfl rfl rfl

/-- C8: a failed run never creates the output directory (nor any other
directory): whenever the run ends in an error, the final directory set is
exactly the initial one, because directory creation happens only after
both metric values were read successfully. -/
theorem failed_run_creates_no_dirs (fs : FS) (e : ScriptError) (fs2 : FS) (tr : List Event)
    (h : runScript fs = .err e fs2 tr) :
    fs2.dirs = fs.dirs :=
  (runScript_err_state fs e fs2 tr h).1

/-- C8 witness: the bad-pickle run fails after extraction with the
directory set untouched. -/
theorem failed_run_creates_no_dirs_witness :
    runScript badPickleFS = .err ScriptError.unpickleError badPickleFS1 badPickleTrace ∧
    badPickleFS1.dirs = badPickleFS.dirs :=
  ⟨rfl, failed_run_creates_no_dirs badPickleFS _ _ _ rfl⟩

/-- C9: the program performs no type validation on the metric values:
whenever both keys are present, whatever values they hold (numeric or
not) are placed into the report verbatim and the run succeeds. -/
theorem metric_values_untyped_verbatim (fs : FS) (ms : List (String × Bytes)) (r : ResultObj)
    (v1 v2 : JVal)
    (h1 : lookupFile fs.modelDir "model.tar.gz" = some (Bytes.tarGzOf ms))
    (h2 : lookupFile (extractAll fs.modelDir ms) "model.pkl" = some (Bytes.pickleOf r))
    (h3 : lookupFile r.metrics "valid-mae" = some v1)
    (h4 : lookupFile r.metrics "valid-rmse" = some v2) :
    isOk (runScript fs) = true ∧
    lookupFile (finalFS (runScript fs)).files evaluation_path
      = some (dumpsReport (reportDict v1 v2)) := by
  rw [runScript_ok fs ms r v1 v2 h1 h2 h3 h4]
  exact ⟨rfl, lookupFile_setFile_self _ _ _⟩

/-- C9 witness: string-valued metrics are non-numeric, yet the run
succeeds and the strings land verbatim in the report. -/
theorem metric_values_untyped_verbatim_witness :
    JVal.isNum (JVal.jstr "not-a-number") = false ∧
    JVal.isNum (JVal.jstr "also-text") = false ∧
    (isOk (runScript strFS) = true ∧
     lookupFile (finalFS (runScript strFS)).files evaluation_path
       = some (dumpsReport (reportDict (JVal.jstr "not-a-number") (JVal.jstr "also-text")))) :=
  ⟨rfl, rfl, metric_values_untyped_verbatim strFS strMembers strResult _ _ rfl rfl rfl rfl⟩

/-- C10: the report depends only on the values at the two required keys:
two artifacts whose metrics mappings agree on `valid-mae` and
`valid-rmse` yield byte-identical `evaluation.json` content, regardless
of any other keys present. -/
theorem report_noninterference (fsA fsB : FS)
    (msA msB : List (String × Bytes)) (rA rB : ResultObj) (m rv : JVal)
    (hA1 : lookupFile fsA.modelDir "model.tar.gz" = some (Bytes.tarGzOf msA))
    (hA2 : lookupFile (extractAll fsA.modelDir msA) "model.pkl" = some (Bytes.pickleOf rA))
    (hB1 : lookupFile fsB.modelDir "model.tar.gz" = some (Bytes.tarGzOf msB))
    (hB2 : lookupFile (extractAll fsB.modelDir msB) "model.pkl" = some (Bytes.pickleOf rB))
    (hmaeA : lookupFile rA.metrics "valid-mae" = some m)
    (hmaeB : lookupFile rB.metrics "valid-mae" = some m)
    (hrmseA : lookupFile rA.metrics "valid-rmse" = some rv)
    (hrmseB : lookupFile rB.metrics "valid-rmse" = some rv) :
    lookupFile (finalFS (runScript fsA)).files evaluation_path
      = lookupFile (finalFS (runScript fsB)).files evaluation_path := by
  rw [runScript_ok fsA msA rA m rv hA1 hA2 hmaeA hrmseA,
    runScript_ok fsB msB rB m rv hB1 hB2 hmaeB hrmseB]
  exact (lookupFile_setFile_self _ _ _).trans (lookupFile_setFile_self _ _ _).symm

/-- C10 witness: the artifact with extra metrics produces the same report
bytes as the plain sample artifact. -/
theorem report_noninterference_witness :
    lookupFile extraResult.metrics "train-logloss" = some (JVal.jnum 7) ∧
    lookupFile (finalFS (runScript sampleFS)).files evaluation_path
      = lookupFile (finalFS (runScript extraFS)).files evaluation_path :=
  ⟨rfl, report_noninterference sampleFS extraFS sampleMembers extraMembers
    sampleResult extraResult _ _ rfl rfl rfl rfl rfl rfl rfl rfl⟩

end EvaluateScript
